import Mathlib

/-!
Shallow embedding of the grounding response pipeline of `grounding_server.py`
(repository `mcp-4k-eyes`): the coordinate mapper `scale_box`, the component
sanitizer loop inside `analyze_screenshot`, the backend retry policy, the
Google-backend response-shape validation, and the orchestrator's input
validation.  JSON values carry exact rationals in place of IEEE-754 doubles:
every concrete computation in the claims stays well within the range where
binary doubles and exact rationals agree, and `round` is modelled as Python's
round-half-to-even on the exact value.
-/

namespace Grounding

/-- A Python/JSON value as produced by `json.loads` (numbers as exact
rationals; objects as association lists in insertion order, keys unique). -/
inductive JVal where
  | jnull
  | jbool (b : Bool)
  | jnum (q : ℚ)
  | jstr (s : String)
  | jarr (elems : List JVal)
  | jobj (fields : List (String × JVal))

/-- Python truthiness (`bool(v)`) on JSON values. -/
def truthy : JVal → Bool
  | .jnull => false
  | .jbool b => b
  | .jnum q => q != 0
  | .jstr s => s != ""
  | .jarr elems => !elems.isEmpty
  | .jobj fields => !fields.isEmpty

/-- Numeric value of a list of decimal digit characters. -/
def digitsVal : List Char → ℕ
  | [] => 0
  | c :: cs => (c.toNat - 48) * 10 ^ cs.length + digitsVal cs

/-- Python `float(s)` on a string, restricted to plain finite decimal
literals (optional sign, digits, optional fractional part).  Scientific
notation, `inf`/`nan`, underscores and surrounding whitespace are treated as
conversion failures; no claim exercises those corners. -/
def pyFloatOfString (s : String) : Option ℚ :=
  let body := fun (cs : List Char) =>
    let intPart := cs.takeWhile Char.isDigit
    let rest := cs.dropWhile Char.isDigit
    match rest with
    | [] => if intPart.isEmpty then none else some ((digitsVal intPart : ℚ))
    | '.' :: frac =>
        if frac.all Char.isDigit && !(intPart.isEmpty && frac.isEmpty) then
          some ((digitsVal intPart : ℚ) + (digitsVal frac : ℚ) / 10 ^ frac.length)
        else none
    | _ => none
  match s.data with
  | '-' :: cs => (body cs).map (fun q => -q)
  | '+' :: cs => body cs
  | cs => body cs

/-- Python `float(v)`: numbers and bools convert, numeric strings parse,
everything else raises (`none`). -/
def pyFloat : JVal → Option ℚ
  | .jnum q => some q
  | .jbool b => some (if b then 1 else 0)
  | .jstr s => pyFloatOfString s
  | _ => none

/-- `float` conversion of every element (`none` as soon as one raises). -/
def pyFloats : List JVal → Option (List ℚ)
  | [] => some []
  | v :: vs =>
    match pyFloat v, pyFloats vs with
    | some q, some qs => some (q :: qs)
    | _, _ => none

/-- Python 3 `round` on an exact value: round half to even. -/
def roundHalfEven (q : ℚ) : ℤ :=
  let f := ⌊q⌋
  let r := q - f
  if r < 1 / 2 then f
  else if 1 / 2 < r then f + 1
  else if f % 2 = 0 then f else f + 1

/-- `max(0.0, min(1000.0, v))` — line 123. -/
def clamp01000 (q : ℚ) : ℚ := max 0 (min 1000 q)

/-- `int(round((v / 1000.0) * dim))` — lines 131-134. -/
def scaleCoord (v : ℚ) (dim : ℤ) : ℤ := roundHalfEven (v / 1000 * dim)

/-- The conditional swap of lines 126-129: `if b < a: a, b = b, a`. -/
def ordPair (a b : ℚ) : ℚ × ℚ := if b < a then (b, a) else (a, b)

/-- Degenerate-box repair of lines 137-140:
`if hi <= lo: hi = min(dim, lo + 1)`. -/
def repairMax (dim lo hi : ℤ) : ℤ := if hi ≤ lo then min dim (lo + 1) else hi

/-- The pixel-space dictionary returned by `scale_box` (lines 142-151). -/
structure PixelBox where
  center_x : ℤ
  center_y : ℤ
  width : ℤ
  height : ℤ
  y_min : ℤ
  x_min : ℤ
  y_max : ℤ
  x_max : ℤ
deriving DecidableEq

/-- Outcome of a `scale_box` call: the `{"error": "invalid_box"}` dictionary,
an uncaught exception, or a pixel box. -/
inductive ScaleResult where
  | invalidBox
  | raise
  | ok (pb : PixelBox)
deriving DecidableEq

/-- Lines 122-151 of `scale_box` once the four elements are in hand:
elementwise clamp, order correction, scaling, degenerate repair, assembly. -/
def scale_box_core (vy1 vx1 vy2 vx2 : ℚ) (width height : ℤ) : PixelBox :=
  let yp := ordPair (clamp01000 vy1) (clamp01000 vy2)
  let xp := ordPair (clamp01000 vx1) (clamp01000 vx2)
  let abs_y1 := scaleCoord yp.1 height
  let abs_x1 := scaleCoord xp.1 width
  let abs_y2 := repairMax height abs_y1 (scaleCoord yp.2 height)
  let abs_x2 := repairMax width abs_x1 (scaleCoord xp.2 width)
  { center_x := (abs_x1 + abs_x2).fdiv 2
    center_y := (abs_y1 + abs_y2).fdiv 2
    width := abs_x2 - abs_x1
    height := abs_y2 - abs_y1
    y_min := abs_y1
    x_min := abs_x1
    y_max := abs_y2
    x_max := abs_x2 }

/-- The list comprehension of line 123 applied to the unpacked elements:
raises (`.raise`) as soon as one `float(v)` raises. -/
def scaleList (elems : List JVal) (width height : ℤ) : ScaleResult :=
  match pyFloats elems with
  | some [vy1, vx1, vy2, vx2] => .ok (scale_box_core vy1 vx1 vy2 vx2 width height)
  | _ => .raise

/-- `scale_box(box_norm, width, height)` — lines 107-151.  The guard
`not box_norm or len(box_norm) != 4` returns the `invalid_box` error;
`len` on a non-sized value raises `TypeError`; iterating a string yields its
characters and iterating a dict yields its keys. -/
def scale_box (box_norm : JVal) (width height : ℤ) : ScaleResult :=
  if truthy box_norm = false then .invalidBox
  else
    match box_norm with
    | .jarr elems =>
        if elems.length = 4 then scaleList elems width height else .invalidBox
    | .jstr s =>
        if s.length = 4 then
          scaleList (s.data.map (fun ch => JVal.jstr (String.mk [ch]))) width height
        else .invalidBox
    | .jobj fields =>
        if fields.length = 4 then
          scaleList (fields.map (fun kv => JVal.jstr kv.1)) width height
        else .invalidBox
    | _ => .raise

/-! ## Component sanitizer — the loop of `analyze_screenshot`, lines 400-446 -/

/-- `ALLOWED_TYPES` — line 56. -/
def ALLOWED_TYPES : List String := ["button", "input", "icon", "text", "link", "image", "other"]

/-- The `type` normalization of lines 416-420.  A membership test
`c_type not in ALLOWED_TYPES` on an unhashable value (list or dict) raises
`TypeError` (`none`), which the per-component handler turns into a drop;
a hashable value not in the set is replaced by `"other"`. -/
def typeCheck (v : JVal) : Option JVal :=
  match v with
  | .jarr _ => none
  | .jobj _ => none
  | .jstr s => some (.jstr (if s ∈ ALLOWED_TYPES then s else "other"))
  | _ => some (.jstr "other")

/-- One sanitized component as appended on lines 436-443. -/
structure Component where
  id : JVal
  label : JVal
  type : JVal
  tags : List JVal
  box_norm : JVal
  box_px : PixelBox

/-- The body of the `for i, c in enumerate(raw_comps)` loop (lines 407-446)
for one component: `none` models `continue` (skip / drop), whether from the
explicit checks or from an exception caught by the inner `try`. -/
def sanitizeComponent (width height : ℤ) (i : ℕ) (c : JVal) : Option Component :=
  match c with
  | .jobj fields =>
    match typeCheck ((List.lookup "type" fields).getD (.jstr "other")) with
    | none => none
    | some ctype =>
      match (List.lookup "box_2d" fields).getD
          (.jarr [.jnum 0, .jnum 0, .jnum 0, .jnum 0]) with
      | .jarr xs =>
        if xs.length = 4 then
          match scale_box (.jarr xs) width height with
          | .ok pb =>
            some { id := (List.lookup "id" fields).getD (.jnum (i + 1))
                   label := (List.lookup "label" fields).getD (.jstr "unknown")
                   type := ctype
                   tags := match List.lookup "tags" fields with
                           | some (.jarr ts) => ts
                           | _ => []
                   box_norm := .jarr xs
                   box_px := pb }
          | _ => none
        else none
      | _ => none
  | _ => none

/-- The enumerate-and-filter loop over the raw component list. -/
def sanitizeList (width height : ℤ) : ℕ → List JVal → List Component
  | _, [] => []
  | i, c :: rest =>
    match sanitizeComponent width height i c with
    | some comp => comp :: sanitizeList width height (i + 1) rest
    | none => sanitizeList width height (i + 1) rest

/-- Sanitization of the whole list, starting at index 0 (line 407). -/
def sanitizeComponents (width height : ℤ) (raw : List JVal) : List Component :=
  sanitizeList width height 0 raw

/-- Whether a raw component survives sanitization.  The index only feeds the
defaulted `id` value, never the drop decision, so index 0 characterizes
survival at every position (proved below). -/
def survivesB (width height : ℤ) (c : JVal) : Bool :=
  (sanitizeComponent width height 0 c).isSome

/-- The `label` a surviving mapping receives (line 415). -/
def pyLabel (c : JVal) : JVal :=
  match c with
  | .jobj fields => (List.lookup "label" fields).getD (.jstr "unknown")
  | _ => .jnull

/-! ## Backend retry policy — `tenacity` decorators on lines 171 and 229 -/

/-- A Python exception: `ValueError` is caught separately from other
exceptions by the orchestrator (lines 392-397). -/
inductive PyExn where
  | valueError (msg : String)
  | otherExn (msg : String)
deriving DecidableEq

/-- Modelled from the tenacity library's documented semantics:
`retry(stop=stop_after_attempt(3), ...)` calls the wrapped function until it
succeeds or the attempt budget is spent, then re-raises the last exception.
`retryCall gen made fuel` performs one attempt and allows `fuel` further
ones; it returns the outcome and the total number of invocations.
`stop_after_attempt(3)` is `retryCall gen 0 2`. -/
def retryCall (gen : ℕ → Except PyExn JVal) (made : ℕ) : ℕ → Except PyExn JVal × ℕ
  | 0 => (gen made, made + 1)
  | fuel + 1 =>
    match gen made with
    | .ok d => (.ok d, made + 1)
    | .error _ => retryCall gen (made + 1) fuel

/-- Modelled from the tenacity library's documented semantics:
`wait_exponential(multiplier=1, min=2, max=10)` sleeps
`max(min, min(multiplier * 2 ** attempt_number, max))` time units after the
`attempt_number`-th failed attempt (1-based). -/
def tenacityWait (attemptNumber : ℕ) : ℚ :=
  max 2 (min (1 * 2 ^ attemptNumber) 10)

/-! ## Google backend response-shape handling — lines 205-212 -/

/-- Validation of the parsed provider result in `GoogleBackend.generate`:
a non-dict raises `ValueError` (line 206-207); a dict missing the
`"components"` key gets an empty list inserted (lines 208-210). -/
def googleValidate (result : JVal) : Except String JVal :=
  match result with
  | .jobj fields =>
    if (List.lookup "components" fields).isSome then .ok (.jobj fields)
    else .ok (.jobj (fields ++ [("components", .jarr [])]))
  | _ => .error "Expected dict response"

/-! ## Base64 decoding — `base64.b64decode(image_base64, validate=True)` -/

/-- Value of one character of the base64 alphabet. -/
def b64CharVal (ch : Char) : Option ℕ :=
  if 'A' ≤ ch ∧ ch ≤ 'Z' then some (ch.toNat - 65)
  else if 'a' ≤ ch ∧ ch ≤ 'z' then some (ch.toNat - 97 + 26)
  else if '0' ≤ ch ∧ ch ≤ '9' then some (ch.toNat - 48 + 52)
  else if ch = '+' then some 62
  else if ch = '/' then some 63
  else none

/-- Bytes of a run of 6-bit values; a final group of 2 or 3 values carries
the 8 or 16 leading bits (excess low bits discarded, as `a2b_base64` does). -/
def b64Chunks : List ℕ → List ℕ
  | a :: b :: c :: d :: rest =>
    let v := ((a * 64 + b) * 64 + c) * 64 + d
    v / 65536 :: v / 256 % 256 :: v % 256 :: b64Chunks rest
  | [a, b] => [(a * 64 + b) / 16]
  | [a, b, c] => [((a * 64 + b) * 64 + c) / 1024, ((a * 64 + b) * 64 + c) / 4 % 256]
  | _ => []

/-- `base64.b64decode(s, validate=True)`: the input must match
`[A-Za-z0-9+/]*={0,2}` and have length a multiple of 4, otherwise the call
raises (`none`); on success it yields the decoded bytes. -/
def base64Decode (s : String) : Option (List ℕ) :=
  let cs := s.data
  let pad := (cs.reverse.takeWhile (fun c => c == '=')).length
  let data := cs.take (cs.length - pad)
  if 2 < pad then none
  else if (data.filterMap b64CharVal).length ≠ data.length then none
  else if cs.length % 4 ≠ 0 then none
  else some (b64Chunks (data.filterMap b64CharVal))

/-! ## Orchestrator — `analyze_screenshot`, lines 312-459 -/

/-- `MAX_IMAGE_BYTES = 6 * 1024 * 1024` — line 54. -/
def MAX_IMAGE_BYTES : ℕ := 6 * 1024 * 1024

/-- `MAX_DIMENSION = 8000` — line 55. -/
def MAX_DIMENSION : ℤ := 8000

/-- The response envelope: an error dictionary (messages abstracted) or the
success dictionary of lines 448-453. -/
inductive AnalyzeResult where
  | err (code : String)
  | ok (summary : JVal) (width height : ℤ) (components : List Component)
       (component_count : ℕ)

/-- Steps 5-7 of `analyze_screenshot` (lines 399-455): read `components`
defensively, sanitize, assemble.  `.get` on a non-dict raises
`AttributeError`, which the outermost handler reports as `internal_error`
(lines 457-459). -/
def assembleResult (width height : ℤ) (data : JVal) : AnalyzeResult :=
  match data with
  | .jobj fields =>
    let raw := (List.lookup "components" fields).getD (.jarr [])
    let rawList := match raw with
                   | .jarr xs => xs
                   | _ => []
    let final := sanitizeComponents width height rawList
    .ok ((List.lookup "summary" fields).getD (.jstr "")) width height
      final final.length
  | _ => .err "internal_error"

/-- `analyze_screenshot(image_base64)` — lines 312-459.  `loadImage` stands
for PIL's `Image.open` plus `_fix_orientation` and yields the image size or
`none` on a decode failure; `handler` is the lazily initialized backend
(`none` when `_get_handler` raises its configuration `ValueError`), whose
`generate` is modelled by the outcome of each numbered invocation; the PNG
re-encoding of lines 362-365 does not affect any claim and is absorbed into
the backend oracle.  The second result component counts backend invocations. -/
def analyze_screenshot (loadImage : List ℕ → Option (ℤ × ℤ))
    (handler : Option (ℕ → Except PyExn JVal)) (image_base64 : Option String) :
    AnalyzeResult × ℕ :=
  match image_base64 with
  | none => (.err "empty_or_invalid_input", 0)
  | some s =>
    if s = "" then (.err "empty_or_invalid_input", 0)
    else
      match base64Decode s with
      | none => (.err "invalid_base64", 0)
      | some bytes =>
        if bytes.length = 0 then (.err "empty_decoded_image", 0)
        else if MAX_IMAGE_BYTES < bytes.length then (.err "image_too_large", 0)
        else
          match loadImage bytes with
          | none => (.err "invalid_image_format", 0)
          | some (w, h) =>
            if w ≤ 0 ∨ h ≤ 0 then (.err "invalid_dimensions", 0)
            else if MAX_DIMENSION < w ∨ MAX_DIMENSION < h then
              (.err "dimensions_too_large", 0)
            else
              match handler with
              | none => (.err "configuration_error", 0)
              | some gen =>
                match retryCall gen 0 2 with
                | (.error (.valueError _), n) => (.err "configuration_error", n)
                | (.error (.otherExn _), n) => (.err "ai_provider_error", n)
                | (.ok data, n) => (assembleResult w h data, n)

/-! ## Arithmetic facts about rounding, clamping and scaling -/

lemma roundHalfEven_eq_floor_or (q : ℚ) :
    roundHalfEven q = ⌊q⌋ ∨ roundHalfEven q = ⌊q⌋ + 1 := by
  simp only [roundHalfEven]
  split_ifs <;> simp

lemma roundHalfEven_nonneg {q : ℚ} (h : 0 ≤ q) : 0 ≤ roundHalfEven q := by
  have hf : (0 : ℤ) ≤ ⌊q⌋ := Int.le_floor.mpr (by exact_mod_cast h)
  rcases roundHalfEven_eq_floor_or q with h' | h' <;> omega

lemma roundHalfEven_le {q : ℚ} {B : ℤ} (h : q ≤ (B : ℚ)) : roundHalfEven q ≤ B := by
  have hf : ⌊q⌋ ≤ B := by
    calc ⌊q⌋ ≤ ⌊(B : ℚ)⌋ := Int.floor_le_floor h
    _ = B := Int.floor_intCast B
  simp only [roundHalfEven]
  split_ifs with h1 h2 h3
  · exact hf
  all_goals {
    have hlt : ⌊q⌋ < B := by
      rcases lt_or_eq_of_le hf with hc | hc
      · exact hc
      · exfalso
        apply h1
        have : q - (⌊q⌋ : ℚ) ≤ 0 := by
          rw [hc]
          linarith
        linarith
    omega }

lemma clamp01000_nonneg (q : ℚ) : 0 ≤ clamp01000 q := le_max_left 0 _

lemma clamp01000_le_1000 (q : ℚ) : clamp01000 q ≤ 1000 :=
  max_le (by norm_num) (min_le_left 1000 q)

lemma clamp01000_mono {a b : ℚ} (h : a ≤ b) : clamp01000 a ≤ clamp01000 b :=
  max_le_max le_rfl (min_le_min le_rfl h)

lemma clamp01000_min (a b : ℚ) :
    clamp01000 (min a b) = min (clamp01000 a) (clamp01000 b) := by
  rcases le_total a b with h | h
  · rw [min_eq_left h, min_eq_left (clamp01000_mono h)]
  · rw [min_eq_right h, min_eq_right (clamp01000_mono h)]

lemma clamp01000_max (a b : ℚ) :
    clamp01000 (max a b) = max (clamp01000 a) (clamp01000 b) := by
  rcases le_total a b with h | h
  · rw [max_eq_right h, max_eq_right (clamp01000_mono h)]
  · rw [max_eq_left h, max_eq_left (clamp01000_mono h)]

lemma scaleCoord_nonneg {v : ℚ} {d : ℤ} (hv : 0 ≤ v) (hd : 0 ≤ d) :
    0 ≤ scaleCoord v d := by
  apply roundHalfEven_nonneg
  apply mul_nonneg (by positivity)
  exact_mod_cast hd

lemma scaleCoord_le {v : ℚ} {d : ℤ} (hv1000 : v ≤ 1000) (hd : 0 ≤ d) :
    scaleCoord v d ≤ d := by
  apply roundHalfEven_le
  have h1 : v / 1000 ≤ 1 := by
    rw [div_le_one (by norm_num)]
    exact hv1000
  calc v / 1000 * (d : ℚ) ≤ 1 * (d : ℚ) :=
        mul_le_mul_of_nonneg_right h1 (by exact_mod_cast hd)
  _ = (d : ℚ) := one_mul _

lemma ordPair_eq (a b : ℚ) : ordPair a b = (min a b, max a b) := by
  unfold ordPair
  split
  · rename_i h
    rw [min_eq_right (le_of_lt h), max_eq_left (le_of_lt h)]
  · rename_i h
    rw [min_eq_left (le_of_not_lt h), max_eq_right (le_of_not_lt h)]

lemma ordPair_of_le {a b : ℚ} (h : a ≤ b) : ordPair a b = (a, b) := by
  rw [ordPair_eq, min_eq_left h, max_eq_right h]

lemma scale_box_jnum (a b c d : ℚ) (w h : ℤ) :
    scale_box (.jarr [.jnum a, .jnum b, .jnum c, .jnum d]) w h =
      .ok (scale_box_core a b c d w h) := rfl

lemma repairMax_le {dim lo hi : ℤ} (hhi : hi ≤ dim) :
    repairMax dim lo hi ≤ dim := by
  unfold repairMax
  split
  · exact min_le_left _ _
  · exact hhi

lemma repairMax_nonneg {dim lo hi : ℤ} (hdim : 0 ≤ dim) (hlo : 0 ≤ lo)
    (hhi : 0 ≤ hi) : 0 ≤ repairMax dim lo hi := by
  unfold repairMax
  split
  · exact le_min hdim (by omega)
  · exact hhi

lemma le_repairMax {dim lo hi : ℤ} (hlo : lo ≤ dim) : lo ≤ repairMax dim lo hi := by
  unfold repairMax
  split
  · exact le_min hlo (by omega)
  · rename_i h
    omega

lemma lt_repairMax {dim lo hi : ℤ} (hlo : lo < dim) : lo < repairMax dim lo hi := by
  unfold repairMax
  split
  · exact lt_min hlo (by omega)
  · rename_i h
    omega

lemma core_x_min (vy1 vx1 vy2 vx2 : ℚ) (w h : ℤ) :
    (scale_box_core vy1 vx1 vy2 vx2 w h).x_min =
      scaleCoord (min (clamp01000 vx1) (clamp01000 vx2)) w := by
  simp [scale_box_core, ordPair_eq]

lemma core_y_min (vy1 vx1 vy2 vx2 : ℚ) (w h : ℤ) :
    (scale_box_core vy1 vx1 vy2 vx2 w h).y_min =
      scaleCoord (min (clamp01000 vy1) (clamp01000 vy2)) h := by
  simp [scale_box_core, ordPair_eq]

lemma core_x_max (vy1 vx1 vy2 vx2 : ℚ) (w h : ℤ) :
    (scale_box_core vy1 vx1 vy2 vx2 w h).x_max =
      repairMax w (scaleCoord (min (clamp01000 vx1) (clamp01000 vx2)) w)
        (scaleCoord (max (clamp01000 vx1) (clamp01000 vx2)) w) := by
  simp [scale_box_core, ordPair_eq]

lemma core_y_max (vy1 vx1 vy2 vx2 : ℚ) (w h : ℤ) :
    (scale_box_core vy1 vx1 vy2 vx2 w h).y_max =
      repairMax h (scaleCoord (min (clamp01000 vy1) (clamp01000 vy2)) h)
        (scaleCoord (max (clamp01000 vy1) (clamp01000 vy2)) h) := by
  simp [scale_box_core, ordPair_eq]

lemma core_width (vy1 vx1 vy2 vx2 : ℚ) (w h : ℤ) :
    (scale_box_core vy1 vx1 vy2 vx2 w h).width =
      (scale_box_core vy1 vx1 vy2 vx2 w h).x_max -
        (scale_box_core vy1 vx1 vy2 vx2 w h).x_min := by
  simp [scale_box_core]

lemma core_height (vy1 vx1 vy2 vx2 : ℚ) (w h : ℤ) :
    (scale_box_core vy1 vx1 vy2 vx2 w h).height =
      (scale_box_core vy1 vx1 vy2 vx2 w h).y_max -
        (scale_box_core vy1 vx1 vy2 vx2 w h).y_min := by
  simp [scale_box_core]

lemma min_clamp_nonneg (a b : ℚ) : 0 ≤ min (clamp01000 a) (clamp01000 b) :=
  le_min (clamp01000_nonneg a) (clamp01000_nonneg b)

lemma min_clamp_le_1000 (a b : ℚ) : min (clamp01000 a) (clamp01000 b) ≤ 1000 :=
  le_trans (min_le_left _ _) (clamp01000_le_1000 a)

lemma max_clamp_le_1000 (a b : ℚ) : max (clamp01000 a) (clamp01000 b) ≤ 1000 :=
  max_le (clamp01000_le_1000 a) (clamp01000_le_1000 b)

/-! ## Claim theorems -/

/-- C2 (amended).  For every 4-element numeric box and positive image
dimensions, `scale_box` succeeds, `width`/`height` are exactly
`x_max - x_min`/`y_max - y_min` after repair, all four corners lie in
`[0, width] × [0, height]` and the corners are ordered; moreover the claimed
strict invariants `x_max > x_min` and `width ≥ 1` hold whenever
`x_min < width` (symmetrically for y).  In the boundary case `x_min = width`
the repaired box collapses to `x_max = x_min` with `width = 0`, refuting the
unconditional claim (see the counterexample). -/
theorem scale_box_invariants (vy1 vx1 vy2 vx2 : ℚ) (w h : ℤ)
    (hw : 0 < w) (hh : 0 < h) :
    ∃ pb, scale_box (.jarr [.jnum vy1, .jnum vx1, .jnum vy2, .jnum vx2]) w h = .ok pb ∧
      pb.width = pb.x_max - pb.x_min ∧ pb.height = pb.y_max - pb.y_min ∧
      0 ≤ pb.x_min ∧ pb.x_min ≤ pb.x_max ∧ pb.x_max ≤ w ∧
      0 ≤ pb.y_min ∧ pb.y_min ≤ pb.y_max ∧ pb.y_max ≤ h ∧
      (pb.x_min < w → pb.x_min < pb.x_max ∧ 1 ≤ pb.width) ∧
      (pb.y_min < h → pb.y_min < pb.y_max ∧ 1 ≤ pb.height) := by
  refine ⟨scale_box_core vy1 vx1 vy2 vx2 w h, scale_box_jnum vy1 vx1 vy2 vx2 w h, ?_⟩
  have hxm := core_x_min vy1 vx1 vy2 vx2 w h
  have hym := core_y_min vy1 vx1 vy2 vx2 w h
  have hxM := core_x_max vy1 vx1 vy2 vx2 w h
  have hyM := core_y_max vy1 vx1 vy2 vx2 w h
  have hx1nn : 0 ≤ scaleCoord (min (clamp01000 vx1) (clamp01000 vx2)) w :=
    scaleCoord_nonneg (min_clamp_nonneg vx1 vx2) (le_of_lt hw)
  have hy1nn : 0 ≤ scaleCoord (min (clamp01000 vy1) (clamp01000 vy2)) h :=
    scaleCoord_nonneg (min_clamp_nonneg vy1 vy2) (le_of_lt hh)
  have hx1le : scaleCoord (min (clamp01000 vx1) (clamp01000 vx2)) w ≤ w :=
    scaleCoord_le (min_clamp_le_1000 vx1 vx2) (le_of_lt hw)
  have hy1le : scaleCoord (min (clamp01000 vy1) (clamp01000 vy2)) h ≤ h :=
    scaleCoord_le (min_clamp_le_1000 vy1 vy2) (le_of_lt hh)
  have hx2le : scaleCoord (max (clamp01000 vx1) (clamp01000 vx2)) w ≤ w :=
    scaleCoord_le (max_clamp_le_1000 vx1 vx2) (le_of_lt hw)
  have hy2le : scaleCoord (max (clamp01000 vy1) (clamp01000 vy2)) h ≤ h :=
    scaleCoord_le (max_clamp_le_1000 vy1 vy2) (le_of_lt hh)
  refine ⟨core_width vy1 vx1 vy2 vx2 w h, core_height vy1 vx1 vy2 vx2 w h,
    ?_, ?_, ?_, ?_, ?_, ?_, ?_, ?_⟩
  · rw [hxm]; exact hx1nn
  · rw [hxm, hxM]; exact le_repairMax hx1le
  · rw [hxM]; exact repairMax_le hx2le
  · rw [hym]; exact hy1nn
  · rw [hym, hyM]; exact le_repairMax hy1le
  · rw [hyM]; exact repairMax_le hy2le
  · intro hlt
    rw [hxm] at hlt
    have : (scale_box_core vy1 vx1 vy2 vx2 w h).x_min <
        (scale_box_core vy1 vx1 vy2 vx2 w h).x_max := by
      rw [hxm, hxM]; exact lt_repairMax hlt
    refine ⟨this, ?_⟩
    rw [core_width vy1 vx1 vy2 vx2 w h]
    omega
  · intro hlt
    rw [hym] at hlt
    have : (scale_box_core vy1 vx1 vy2 vx2 w h).y_min <
        (scale_box_core vy1 vx1 vy2 vx2 w h).y_max := by
      rw [hym, hyM]; exact lt_repairMax hlt
    refine ⟨this, ?_⟩
    rw [core_height vy1 vx1 vy2 vx2 w h]
    omega

/-- C2 counterexample.  On the box `[1000, 1000, 1000, 1000]` and a
1000×1000 image the repaired box collapses at the far boundary:
`x_max = x_min = 1000` and `width = height = 0`, contradicting the claimed
`x_max > x_min`, `y_max > y_min` and `width, height ≥ 1`. -/
theorem scale_box_boundary_zero_width :
    scale_box (.jarr [.jnum 1000, .jnum 1000, .jnum 1000, .jnum 1000]) 1000 1000 =
      .ok { center_x := 1000, center_y := 1000, width := 0, height := 0,
            y_min := 1000, x_min := 1000, y_max := 1000, x_max := 1000 } := by
  simp only [scale_box, scaleList, pyFloats, pyFloat, truthy, List.isEmpty]
  norm_num [scale_box_core, ordPair, repairMax, clamp01000, scaleCoord, roundHalfEven,
    min_def, max_def, Int.fdiv]

/-- C2 witness: the invariants theorem at the box `[0, 0, 500, 500]` on a
1000×1000 image. -/
theorem scale_box_invariants_witness :
    ∃ pb, scale_box (.jarr [.jnum 0, .jnum 0, .jnum 500, .jnum 500]) 1000 1000 = .ok pb ∧
      pb.width = pb.x_max - pb.x_min ∧ pb.height = pb.y_max - pb.y_min ∧
      0 ≤ pb.x_min ∧ pb.x_min ≤ pb.x_max ∧ pb.x_max ≤ 1000 ∧
      0 ≤ pb.y_min ∧ pb.y_min ≤ pb.y_max ∧ pb.y_max ≤ 1000 ∧
      (pb.x_min < 1000 → pb.x_min < pb.x_max ∧ 1 ≤ pb.width) ∧
      (pb.y_min < 1000 → pb.y_min < pb.y_max ∧ 1 ≤ pb.height) :=
  scale_box_invariants 0 0 500 500 1000 1000 (by norm_num) (by norm_num)

lemma ordPair_clamp_minmax (a b : ℚ) :
    ordPair (clamp01000 (min a b)) (clamp01000 (max a b)) =
      ordPair (clamp01000 a) (clamp01000 b) := by
  rw [clamp01000_min, clamp01000_max, ordPair_of_le min_le_max, ordPair_eq]

lemma scale_box_core_minmax (vy1 vx1 vy2 vx2 : ℚ) (w h : ℤ) :
    scale_box_core (min vy1 vy2) (min vx1 vx2) (max vy1 vy2) (max vx1 vx2) w h =
      scale_box_core vy1 vx1 vy2 vx2 w h := by
  simp only [scale_box_core, ordPair_clamp_minmax]

/-- C7.  A box with an inverted y or x pair is mapped to exactly the same
pixel box as the order-corrected box: the conditional swap happens after the
elementwise clamp, and clamping commutes with taking min/max. -/
theorem scale_box_swap_correction (vy1 vx1 vy2 vx2 : ℚ) (w h : ℤ)
    (_hinv : vy2 < vy1 ∨ vx2 < vx1) :
    scale_box (.jarr [.jnum vy1, .jnum vx1, .jnum vy2, .jnum vx2]) w h =
      scale_box (.jarr [.jnum (min vy1 vy2), .jnum (min vx1 vx2),
        .jnum (max vy1 vy2), .jnum (max vx1 vx2)]) w h := by
  rw [scale_box_jnum, scale_box_jnum, scale_box_core_minmax]

/-- C7 witness: `scale_box([500,500,0,0], 1000, 1000)` equals the map of the
corrected ordering `[0,0,500,500]`. -/
theorem scale_box_swap_correction_witness :
    scale_box (.jarr [.jnum 500, .jnum 500, .jnum 0, .jnum 0]) 1000 1000 =
      scale_box (.jarr [.jnum (min 500 0), .jnum (min 500 0),
        .jnum (max 500 0), .jnum (max 500 0)]) 1000 1000 :=
  scale_box_swap_correction 500 500 0 0 1000 1000 (Or.inl (by norm_num))

lemma repairMax_of_lt {dim lo hi : ℤ} (h : lo < hi) : repairMax dim lo hi = hi := by
  unfold repairMax
  split
  · omega
  · rfl

/-- C8.  Each of the four coordinates is clamped to `[0, 1000]` before use
and never rejected; each clamped coordinate `v` then maps independently to
`round(v / 1000 * dimension)` with round-half-to-even: the two minimum
corners always equal that formula, and each maximum corner equals it
whenever it exceeds the corresponding minimum (otherwise the separate
degenerate repair of C2 overwrites it). -/
theorem scale_box_clamp_and_round (vy1 vx1 vy2 vx2 : ℚ) (w h : ℤ)
    (hy : vy1 ≤ vy2) (hx : vx1 ≤ vx2) :
    ∃ pb, scale_box (.jarr [.jnum vy1, .jnum vx1, .jnum vy2, .jnum vx2]) w h = .ok pb ∧
      pb.y_min = roundHalfEven (clamp01000 vy1 / 1000 * h) ∧
      pb.x_min = roundHalfEven (clamp01000 vx1 / 1000 * w) ∧
      (pb.x_min < roundHalfEven (clamp01000 vx2 / 1000 * w) →
        pb.x_max = roundHalfEven (clamp01000 vx2 / 1000 * w)) ∧
      (pb.y_min < roundHalfEven (clamp01000 vy2 / 1000 * h) →
        pb.y_max = roundHalfEven (clamp01000 vy2 / 1000 * h)) := by
  refine ⟨scale_box_core vy1 vx1 vy2 vx2 w h, scale_box_jnum vy1 vx1 vy2 vx2 w h,
    ?_, ?_, ?_, ?_⟩
  · rw [core_y_min, min_eq_left (clamp01000_mono hy)]
    rfl
  · rw [core_x_min, min_eq_left (clamp01000_mono hx)]
    rfl
  · intro hlt
    rw [core_x_min, min_eq_left (clamp01000_mono hx)] at hlt
    rw [core_x_max, min_eq_left (clamp01000_mono hx), max_eq_right (clamp01000_mono hx)]
    exact repairMax_of_lt hlt
  · intro hlt
    rw [core_y_min, min_eq_left (clamp01000_mono hy)] at hlt
    rw [core_y_max, min_eq_left (clamp01000_mono hy), max_eq_right (clamp01000_mono hy)]
    exact repairMax_of_lt hlt

/-- C8 witness: the theorem at the out-of-range box `[-100,-100,1100,1100]`
on a 1000×1000 image, together with the claim's concrete clamping instance
`x_min = 0, y_min = 0, x_max = 1000, y_max = 1000`. -/
theorem scale_box_clamp_and_round_witness :
    (∃ pb, scale_box (.jarr [.jnum (-100), .jnum (-100), .jnum 1100, .jnum 1100])
        1000 1000 = .ok pb ∧
      pb.y_min = roundHalfEven (clamp01000 (-100) / 1000 * 1000) ∧
      pb.x_min = roundHalfEven (clamp01000 (-100) / 1000 * 1000) ∧
      (pb.x_min < roundHalfEven (clamp01000 1100 / 1000 * 1000) →
        pb.x_max = roundHalfEven (clamp01000 1100 / 1000 * 1000)) ∧
      (pb.y_min < roundHalfEven (clamp01000 1100 / 1000 * 1000) →
        pb.y_max = roundHalfEven (clamp01000 1100 / 1000 * 1000))) ∧
    scale_box (.jarr [.jnum (-100), .jnum (-100), .jnum 1100, .jnum 1100]) 1000 1000 =
      .ok { center_x := 500, center_y := 500, width := 1000, height := 1000,
            y_min := 0, x_min := 0, y_max := 1000, x_max := 1000 } :=
  ⟨scale_box_clamp_and_round (-100) (-100) 1100 1100 1000 1000 (by norm_num) (by norm_num),
   by
    simp only [scale_box, scaleList, pyFloats, pyFloat, truthy, List.isEmpty]
    norm_num [scale_box_core, ordPair, repairMax, clamp01000, scaleCoord, roundHalfEven,
      min_def, max_def, Int.fdiv]⟩

/-- C3 (amended).  A falsy or wrong-arity box — in particular `null` and
`[1,2]` — yields the `invalid_box` error dictionary without raising; but a
4-element sequence whose entries do not all convert with `float` does not
take that path: it raises instead (see the counterexample), an exception the
component loop of the orchestrator catches and turns into a drop. -/
theorem scale_box_invalid_shapes :
    (∀ (xs : List JVal) (w h : ℤ), xs.length ≠ 4 →
      scale_box (.jarr xs) w h = .invalidBox) ∧
    (∀ w h : ℤ, scale_box .jnull w h = .invalidBox) := by
  constructor
  · intro xs w h hlen
    cases xs with
    | nil => rfl
    | cons a rest =>
      show (if (a :: rest : List JVal).length = 4 then scaleList (a :: rest) w h
        else ScaleResult.invalidBox) = ScaleResult.invalidBox
      rw [if_neg hlen]
  · intro w h
    rfl

/-- C3 counterexample.  The 4-element non-numeric box `[null, null, null,
null]` does not produce the `invalid_box` error: `float(None)` raises a
`TypeError` out of `scale_box`. -/
theorem scale_box_nonnumeric_raises :
    scale_box (.jarr [.jnull, .jnull, .jnull, .jnull]) 1000 1000 = .raise := rfl

/-- C3 witness: the amended theorem at the claim's own examples `[1, 2]`
and `null`. -/
theorem scale_box_invalid_shapes_witness :
    scale_box (.jarr [.jnum 1, .jnum 2]) 1000 1000 = .invalidBox ∧
    scale_box .jnull 1000 1000 = .invalidBox :=
  ⟨scale_box_invalid_shapes.1 [.jnum 1, .jnum 2] 1000 1000 (by decide),
   scale_box_invalid_shapes.2 1000 1000⟩

lemma lookup_cons (k a : String) (v : JVal) (es : List (String × JVal)) :
    List.lookup k ((a, v) :: es) = if k = a then some v else List.lookup k es := by
  by_cases h : k = a
  · subst h
    simp [List.lookup]
  · have hb : (k == a) = false := beq_false_of_ne h
    simp [List.lookup, hb, h]

lemma lookup_append_of_none {fields : List (String × JVal)} {v : JVal}
    (h : List.lookup "components" fields = none) :
    List.lookup "components" (fields ++ [("components", v)]) = some v := by
  induction fields with
  | nil => rfl
  | cons kv rest ih =>
    obtain ⟨a, w⟩ := kv
    rw [List.cons_append, lookup_cons]
    rw [lookup_cons] at h
    by_cases hk : ("components" : String) = a
    · rw [if_pos hk] at h
      exact absurd h (by simp)
    · rw [if_neg hk] at h ⊢
      exact ih h

/-- C6 (amended).  In the Google backend's response handling, a parsed
mapping that lacks the `components` key is coerced to carry
`components: []` (all other fields preserved, result still a success), and
every mapping result comes out with a `components` key present; but a
parsed result that is not a mapping is NOT coerced — it raises `ValueError`
and fails that attempt (see the counterexample). -/
theorem google_components_coercion :
    (∀ fields : List (String × JVal), (List.lookup "components" fields).isSome = true →
      googleValidate (.jobj fields) = .ok (.jobj fields)) ∧
    (∀ fields : List (String × JVal), List.lookup "components" fields = none →
      googleValidate (.jobj fields) =
        .ok (.jobj (fields ++ [("components", .jarr [])]))) ∧
    (∀ fields : List (String × JVal), ∃ fields2,
      googleValidate (.jobj fields) = .ok (.jobj fields2) ∧
      (List.lookup "components" fields2).isSome = true) := by
  refine ⟨?_, ?_, ?_⟩
  · intro fields hsome
    simp [googleValidate, hsome]
  · intro fields hnone
    simp [googleValidate, hnone]
  · intro fields
    cases hc : List.lookup "components" fields with
    | some v =>
      refine ⟨fields, ?_, by simp [hc]⟩
      simp [googleValidate, hc]
    | none =>
      refine ⟨fields ++ [("components", .jarr [])], ?_, ?_⟩
      · simp [googleValidate, hc]
      · rw [lookup_append_of_none hc]
        rfl

/-- C6 counterexample.  A parsed provider result that is a JSON array (not
a mapping) makes `GoogleBackend.generate` raise `ValueError` instead of
being coerced to `components: []`. -/
theorem google_nonmapping_fails :
    googleValidate (.jarr []) = .error "Expected dict response" := rfl

/-- C6 witness: the coercion theorem at the empty mapping `{}`, which gains
`components: []`. -/
theorem google_components_coercion_witness :
    googleValidate (.jobj []) = .ok (.jobj [("components", .jarr [])]) :=
  google_components_coercion.2.1 [] rfl

/-- C4.  The shared tenacity policy makes up to 3 attempts: a backend whose
`generate` fails twice and succeeds on the third invocation yields the
successful end-to-end result with exactly 3 invocations; the wait schedule
starts at 2, doubles each retry and is capped at 10 (2, 4, 8, then 10);
and caller input errors return before the backend, with zero invocations. -/
theorem backend_retry_policy (gen : ℕ → Except PyExn JVal) (e1 e2 : PyExn)
    (d : JVal) (dfields : List (String × JVal))
    (h0 : gen 0 = .error e1) (h1 : gen 1 = .error e2) (h2 : gen 2 = .ok d)
    (hd : d = .jobj dfields) :
    retryCall gen 0 2 = (.ok d, 3) ∧
    (∃ s comps, analyze_screenshot (fun _ => some (100, 100)) (some gen) (some "QUJD") =
      (.ok s 100 100 comps comps.length, 3)) ∧
    tenacityWait 1 = 2 ∧ tenacityWait 2 = 4 ∧ tenacityWait 3 = 8 ∧
    (∀ n, 2 ≤ tenacityWait n ∧ tenacityWait n ≤ 10) ∧
    (∀ n, 1 ≤ n → tenacityWait (n + 1) = min (2 * tenacityWait n) 10) ∧
    (∀ loadImage hnd, analyze_screenshot loadImage hnd none =
      (.err "empty_or_invalid_input", 0)) := by
  have hr : retryCall gen 0 2 = (.ok d, 3) := by
    simp [retryCall, h0, h1, h2]
  have hrun : analyze_screenshot (fun _ => some (100, 100)) (some gen) (some "QUJD") =
      (assembleResult 100 100 d, 3) := by
    calc analyze_screenshot (fun _ => some (100, 100)) (some gen) (some "QUJD")
        = (match retryCall gen 0 2 with
           | (.error (.valueError _), n) => (.err "configuration_error", n)
           | (.error (.otherExn _), n) => (.err "ai_provider_error", n)
           | (.ok data, n) => (assembleResult 100 100 data, n)) := rfl
      _ = (assembleResult 100 100 d, 3) := by rw [hr]
  refine ⟨hr, ?_, ?_, ?_, ?_, ?_, ?_, fun _ _ => rfl⟩
  · subst hd
    rw [hrun]
    exact ⟨_, _, rfl⟩
  · norm_num [tenacityWait, min_def, max_def]
  · norm_num [tenacityWait, min_def, max_def]
  · norm_num [tenacityWait, min_def, max_def]
  · intro n
    exact ⟨le_max_left 2 _, max_le (by norm_num) (min_le_right _ 10)⟩
  · intro n hn
    have h2n : (2 : ℚ) ≤ 2 ^ n := by
      calc (2 : ℚ) = 2 ^ 1 := (pow_one 2).symm
      _ ≤ 2 ^ n := pow_le_pow_right₀ (by norm_num) hn
    unfold tenacityWait
    rw [one_mul, one_mul]
    rcases le_total ((2 : ℚ) ^ n) 10 with hle | hle
    · rw [min_eq_left hle, max_eq_right h2n, pow_succ]
      have hmin2 : (2 : ℚ) ≤ min (2 ^ n * 2) 10 := le_min (by nlinarith) (by norm_num)
      rw [max_eq_right hmin2, mul_comm (2 : ℚ) (2 ^ n)]
    · rw [min_eq_right hle, max_eq_right (by norm_num : (2 : ℚ) ≤ 10)]
      have h10 : (10 : ℚ) ≤ 2 ^ (n + 1) := by
        rw [pow_succ]
        nlinarith
      rw [min_eq_right h10, max_eq_right (by norm_num : (2 : ℚ) ≤ 10),
        min_eq_right (by norm_num : (10 : ℚ) ≤ 2 * 10)]

/-- C4 witness: a backend failing on its first two invocations and
succeeding on the third, run end to end. -/
theorem backend_retry_policy_witness :
    retryCall (fun n => if n = 0 then .error (.otherExn "timeout1")
      else if n = 1 then .error (.otherExn "timeout2")
      else .ok (.jobj [])) 0 2 = (.ok (.jobj []), 3) ∧
    (∃ s comps, analyze_screenshot (fun _ => some (100, 100))
      (some (fun n => if n = 0 then .error (.otherExn "timeout1")
        else if n = 1 then .error (.otherExn "timeout2")
        else .ok (.jobj []))) (some "QUJD") =
      (.ok s 100 100 comps comps.length, 3)) ∧
    tenacityWait 1 = 2 ∧ tenacityWait 2 = 4 ∧ tenacityWait 3 = 8 ∧
    (∀ n, 2 ≤ tenacityWait n ∧ tenacityWait n ≤ 10) ∧
    (∀ n, 1 ≤ n → tenacityWait (n + 1) = min (2 * tenacityWait n) 10) ∧
    (∀ loadImage hnd, analyze_screenshot loadImage hnd none =
      (.err "empty_or_invalid_input", 0)) :=
  backend_retry_policy
    (fun n => if n = 0 then .error (.otherExn "timeout1")
      else if n = 1 then .error (.otherExn "timeout2")
      else .ok (.jobj []))
    (.otherExn "timeout1") (.otherExn "timeout2") (.jobj []) []
    rfl rfl rfl rfl

/-- C5.  A non-string input, an empty string, and a string that fails
base64 validation are rejected with `empty_or_invalid_input` resp.
`invalid_base64`, with zero backend invocations in every case. -/
theorem input_validation_short_circuits :
    (∀ loadImage hnd, analyze_screenshot loadImage hnd none =
      (.err "empty_or_invalid_input", 0)) ∧
    (∀ loadImage hnd, analyze_screenshot loadImage hnd (some "") =
      (.err "empty_or_invalid_input", 0)) ∧
    (∀ loadImage hnd s, base64Decode s = none →
      analyze_screenshot loadImage hnd (some s) = (.err "invalid_base64", 0)) := by
  refine ⟨fun _ _ => rfl, fun _ _ => rfl, ?_⟩
  intro li hnd s hdec
  have hne : s ≠ "" := by
    intro hs
    rw [hs] at hdec
    exact absurd hdec (by decide)
  simp only [analyze_screenshot]
  rw [if_neg hne, hdec]

/-- C5 witness: the invalid-base64 string `"!!!"` is rejected with zero
backend invocations. -/
theorem input_validation_short_circuits_witness :
    analyze_screenshot (fun _ => none) none (some "!!!") =
      (.err "invalid_base64", 0) :=
  input_validation_short_circuits.2.2 (fun _ => none) none "!!!" (by decide)

/-! ## Sanitizer structure lemmas -/

/-- A present `box_2d` value is usable exactly when it is a 4-element
sequence whose entries all convert with `float`. -/
def validBox4 (v : JVal) : Bool :=
  match v with
  | .jarr xs => xs.length == 4 && (pyFloats xs).isSome
  | _ => false

lemma pyFloats_length : ∀ {xs : List JVal} {qs : List ℚ},
    pyFloats xs = some qs → qs.length = xs.length := by
  intro xs
  induction xs with
  | nil =>
    intro qs hq
    simp only [pyFloats, Option.some.injEq] at hq
    subst hq
    rfl
  | cons v rest ih =>
    intro qs hq
    simp only [pyFloats] at hq
    cases hv : pyFloat v with
    | none => rw [hv] at hq; exact absurd hq (by simp)
    | some q =>
      rw [hv] at hq
      cases hr : pyFloats rest with
      | none => rw [hr] at hq; exact absurd hq (by simp)
      | some qs' =>
        rw [hr] at hq
        simp only [Option.some.injEq] at hq
        subst hq
        simp [ih hr]

lemma scale_box_jarr {xs : List JVal} (w h : ℤ) (hlen : xs.length = 4) :
    scale_box (.jarr xs) w h = scaleList xs w h := by
  cases xs with
  | nil => simp at hlen
  | cons a rest =>
    show (if (a :: rest : List JVal).length = 4 then scaleList (a :: rest) w h
      else ScaleResult.invalidBox) = scaleList (a :: rest) w h
    rw [if_pos hlen]

lemma scaleList_ok {xs : List JVal} {qs : List ℚ} (w h : ℤ) (hlen : xs.length = 4)
    (hq : pyFloats xs = some qs) : ∃ pb, scaleList xs w h = .ok pb := by
  have hql : qs.length = 4 := by rw [pyFloats_length hq, hlen]
  match qs, hql with
  | [a, b, c, d], _ =>
    exact ⟨scale_box_core a b c d w h, by simp [scaleList, hq]⟩

lemma scaleList_raise {xs : List JVal} (w h : ℤ) (hq : pyFloats xs = none) :
    scaleList xs w h = .raise := by
  simp [scaleList, hq]

lemma sanitizeComponent_mk (w h : ℤ) (i : ℕ) (fields : List (String × JVal))
    {ctype : JVal} {xs : List JVal} {pb : PixelBox}
    (htc : typeCheck ((List.lookup "type" fields).getD (.jstr "other")) = some ctype)
    (hbox : (List.lookup "box_2d" fields).getD
      (.jarr [.jnum 0, .jnum 0, .jnum 0, .jnum 0]) = .jarr xs)
    (hlen : xs.length = 4)
    (hsb : scale_box (.jarr xs) w h = .ok pb) :
    sanitizeComponent w h i (.jobj fields) = some
      { id := (List.lookup "id" fields).getD (.jnum (i + 1))
        label := (List.lookup "label" fields).getD (.jstr "unknown")
        type := ctype
        tags := match List.lookup "tags" fields with
                | some (.jarr ts) => ts
                | _ => []
        box_norm := .jarr xs
        box_px := pb } := by
  simp only [sanitizeComponent, htc, hbox, hlen, hsb, eq_self_iff_true, if_true]

lemma sanitizeComponent_eq_some {w h : ℤ} {i : ℕ} {fields : List (String × JVal)}
    {comp : Component} (hs : sanitizeComponent w h i (.jobj fields) = some comp) :
    ∃ ctype xs pb,
      typeCheck ((List.lookup "type" fields).getD (.jstr "other")) = some ctype ∧
      (List.lookup "box_2d" fields).getD
        (.jarr [.jnum 0, .jnum 0, .jnum 0, .jnum 0]) = .jarr xs ∧
      xs.length = 4 ∧
      scale_box (.jarr xs) w h = .ok pb ∧
      comp = { id := (List.lookup "id" fields).getD (.jnum (i + 1))
               label := (List.lookup "label" fields).getD (.jstr "unknown")
               type := ctype
               tags := match List.lookup "tags" fields with
                       | some (.jarr ts) => ts
                       | _ => []
               box_norm := .jarr xs
               box_px := pb } := by
  simp only [sanitizeComponent] at hs
  cases htc : typeCheck ((List.lookup "type" fields).getD (.jstr "other")) with
  | none => rw [htc] at hs; exact absurd hs (by simp)
  | some ctype =>
    rw [htc] at hs
    dsimp only at hs
    cases hbox : (List.lookup "box_2d" fields).getD
        (.jarr [.jnum 0, .jnum 0, .jnum 0, .jnum 0]) with
    | jarr xs =>
      rw [hbox] at hs
      dsimp only at hs
      by_cases hlen : xs.length = 4
      · rw [if_pos hlen] at hs
        cases hsb : scale_box (.jarr xs) w h with
        | ok pb =>
          rw [hsb] at hs
          simp only [Option.some.injEq] at hs
          exact ⟨ctype, xs, pb, rfl, rfl, hlen, hsb, hs.symm⟩
        | invalidBox => rw [hsb] at hs; exact absurd hs (by simp)
        | raise => rw [hsb] at hs; exact absurd hs (by simp)
      · rw [if_neg hlen] at hs
        exact absurd hs (by simp)
    | jnull => rw [hbox] at hs; exact absurd hs (by simp)
    | jbool b => rw [hbox] at hs; exact absurd hs (by simp)
    | jnum q => rw [hbox] at hs; exact absurd hs (by simp)
    | jstr s => rw [hbox] at hs; exact absurd hs (by simp)
    | jobj fs => rw [hbox] at hs; exact absurd hs (by simp)

lemma sanitizeComponent_isSome_eq (w h : ℤ) (i j : ℕ) (c : JVal) :
    (sanitizeComponent w h i c).isSome = (sanitizeComponent w h j c).isSome := by
  cases c with
  | jobj fields =>
    simp only [sanitizeComponent]
    cases typeCheck ((List.lookup "type" fields).getD (.jstr "other")) with
    | none => rfl
    | some ct =>
      dsimp only
      cases (List.lookup "box_2d" fields).getD
          (.jarr [.jnum 0, .jnum 0, .jnum 0, .jnum 0]) with
      | jarr xs =>
        dsimp only
        by_cases hl : xs.length = 4
        · rw [if_pos hl, if_pos hl]
          cases scale_box (.jarr xs) w h <;> rfl
        · rw [if_neg hl, if_neg hl]
      | jnull => rfl
      | jbool b => rfl
      | jnum q => rfl
      | jstr s => rfl
      | jobj fs => rfl
  | jnull => rfl
  | jbool b => rfl
  | jnum q => rfl
  | jstr s => rfl
  | jarr xs => rfl

lemma survivesB_iff {w h : ℤ} (i : ℕ) (c : JVal) :
    survivesB w h c = (sanitizeComponent w h i c).isSome := by
  unfold survivesB
  exact sanitizeComponent_isSome_eq w h 0 i c

lemma length_sanitizeList (w h : ℤ) : ∀ (i : ℕ) (raw : List JVal),
    (sanitizeList w h i raw).length = raw.countP (survivesB w h) := by
  intro i raw
  induction raw generalizing i with
  | nil => rfl
  | cons c rest ih =>
    simp only [sanitizeList]
    cases hs : sanitizeComponent w h i c with
    | some comp =>
      have hb : survivesB w h c = true := by rw [survivesB_iff i c, hs]; rfl
      simp [List.countP_cons, hb, ih (i + 1)]
    | none =>
      have hb : survivesB w h c = false := by rw [survivesB_iff i c, hs]; rfl
      simp [List.countP_cons, hb, ih (i + 1)]

lemma sanitizeComponent_label {w h : ℤ} {i : ℕ} {c : JVal} {comp : Component}
    (hs : sanitizeComponent w h i c = some comp) : comp.label = pyLabel c := by
  cases c with
  | jobj fields =>
    obtain ⟨ctype, xs, pb, -, -, -, -, hc⟩ := sanitizeComponent_eq_some hs
    subst hc
    rfl
  | jnull => exact absurd hs (by simp [sanitizeComponent])
  | jbool b => exact absurd hs (by simp [sanitizeComponent])
  | jnum q => exact absurd hs (by simp [sanitizeComponent])
  | jstr s => exact absurd hs (by simp [sanitizeComponent])
  | jarr xs => exact absurd hs (by simp [sanitizeComponent])

lemma map_label_sanitizeList (w h : ℤ) : ∀ (i : ℕ) (raw : List JVal),
    (sanitizeList w h i raw).map Component.label =
      (raw.filter (survivesB w h)).map pyLabel := by
  intro i raw
  induction raw generalizing i with
  | nil => rfl
  | cons c rest ih =>
    simp only [sanitizeList]
    cases hs : sanitizeComponent w h i c with
    | some comp =>
      have hb : survivesB w h c = true := by rw [survivesB_iff i c, hs]; rfl
      simp [List.filter_cons, hb, ih (i + 1), sanitizeComponent_label hs]
    | none =>
      have hb : survivesB w h c = false := by rw [survivesB_iff i c, hs]; rfl
      simp [List.filter_cons, hb, ih (i + 1)]

lemma scaleCoord_zero (d : ℤ) : scaleCoord 0 d = 0 := by
  norm_num [scaleCoord, roundHalfEven]

lemma clamp01000_zero : clamp01000 0 = 0 := by
  norm_num [clamp01000, min_def, max_def]

/-- C1 (amended).  A component whose `box_2d` is PRESENT but not a
4-element numeric sequence is dropped: the sanitized output omits it, the
component count is exactly one lower than if it had survived, and the
surviving siblings keep their original relative order (their labels, in
order, are those of the surviving raw entries).  But a component whose
`box_2d` field is MISSING is not dropped: the code defaults the box to
`[0, 0, 0, 0]`, so the component is kept with a 1×1-pixel box at the
origin (see the counterexample). -/
theorem sanitizer_box_drop_policy :
    (∀ (w h : ℤ) (i : ℕ) (fields : List (String × JVal)) (v : JVal),
      List.lookup "box_2d" fields = some v → validBox4 v = false →
      sanitizeComponent w h i (.jobj fields) = none) ∧
    (∀ (w h : ℤ) (pre post : List JVal) (c : JVal),
      (sanitizeComponents w h (pre ++ c :: post)).length =
        (sanitizeComponents w h (pre ++ post)).length +
          (if survivesB w h c then 1 else 0)) ∧
    (∀ (w h : ℤ) (raw : List JVal),
      (sanitizeComponents w h raw).map Component.label =
        (raw.filter (survivesB w h)).map pyLabel) ∧
    (∀ (w h : ℤ) (i : ℕ) (fields : List (String × JVal)) (ctype : JVal),
      1 ≤ w → 1 ≤ h → List.lookup "box_2d" fields = none →
      typeCheck ((List.lookup "type" fields).getD (.jstr "other")) = some ctype →
      ∃ comp, sanitizeComponent w h i (.jobj fields) = some comp ∧
        comp.box_norm = .jarr [.jnum 0, .jnum 0, .jnum 0, .jnum 0] ∧
        comp.box_px.x_min = 0 ∧ comp.box_px.y_min = 0 ∧
        comp.box_px.x_max = 1 ∧ comp.box_px.y_max = 1 ∧
        comp.box_px.width = 1 ∧ comp.box_px.height = 1) := by
  refine ⟨?_, ?_, ?_, ?_⟩
  · intro w h i fields v hfind hvb
    simp only [sanitizeComponent]
    cases htc : typeCheck ((List.lookup "type" fields).getD (.jstr "other")) with
    | none => rfl
    | some ct =>
      dsimp only
      rw [hfind]
      dsimp only [Option.getD]
      cases v with
      | jarr xs =>
        dsimp only
        by_cases hl : xs.length = 4
        · cases hpf : pyFloats xs with
          | some qs => simp [validBox4, hl, hpf] at hvb
          | none =>
            rw [if_pos hl, scale_box_jarr w h hl, scaleList_raise w h hpf]
        · rw [if_neg hl]
      | jnull => rfl
      | jbool b => rfl
      | jnum q => rfl
      | jstr s => rfl
      | jobj fs => rfl
  · intro w h pre post c
    unfold sanitizeComponents
    rw [length_sanitizeList, length_sanitizeList, List.countP_append,
      List.countP_append, List.countP_cons]
    cases survivesB w h c
    · simp
    · simp
      omega
  · intro w h raw
    exact map_label_sanitizeList w h 0 raw
  · intro w h i fields ctype hw hh hnone htc
    have hbox : (List.lookup "box_2d" fields).getD
        (.jarr [.jnum 0, .jnum 0, .jnum 0, .jnum 0]) =
        .jarr [.jnum 0, .jnum 0, .jnum 0, .jnum 0] := by
      rw [hnone]
      rfl
    have hsb := scale_box_jnum 0 0 0 0 w h
    refine ⟨_, sanitizeComponent_mk w h i fields htc hbox rfl hsb, rfl, ?_, ?_, ?_, ?_, ?_, ?_⟩
    · show (scale_box_core 0 0 0 0 w h).x_min = 0
      rw [core_x_min, clamp01000_zero, min_self, scaleCoord_zero]
    · show (scale_box_core 0 0 0 0 w h).y_min = 0
      rw [core_y_min, clamp01000_zero, min_self, scaleCoord_zero]
    · show (scale_box_core 0 0 0 0 w h).x_max = 1
      rw [core_x_max, clamp01000_zero, min_self, max_self, scaleCoord_zero]
      unfold repairMax
      rw [if_pos le_rfl, zero_add, min_eq_right hw]
    · show (scale_box_core 0 0 0 0 w h).y_max = 1
      rw [core_y_max, clamp01000_zero, min_self, max_self, scaleCoord_zero]
      unfold repairMax
      rw [if_pos le_rfl, zero_add, min_eq_right hh]
    · show (scale_box_core 0 0 0 0 w h).width = 1
      rw [core_width, core_x_max, core_x_min, clamp01000_zero, min_self, max_self,
        scaleCoord_zero]
      unfold repairMax
      rw [if_pos le_rfl, zero_add, min_eq_right hw]
      omega
    · show (scale_box_core 0 0 0 0 w h).height = 1
      rw [core_height, core_y_max, core_y_min, clamp01000_zero, min_self, max_self,
        scaleCoord_zero]
      unfold repairMax
      rw [if_pos le_rfl, zero_add, min_eq_right hh]
      omega

/-- C1 counterexample.  A component with NO `box_2d` field at all is not
dropped: it survives sanitization on a 100×100 image with the defaulted
zero box, producing exactly the spurious 1×1 click target at the origin the
claim rules out, and the component count does not decrease. -/
theorem missing_box_component_kept :
    sanitizeComponent 100 100 0 (.jobj [("label", .jstr "a")]) =
      some { id := .jnum 1, label := .jstr "a", type := .jstr "other", tags := [],
             box_norm := .jarr [.jnum 0, .jnum 0, .jnum 0, .jnum 0],
             box_px := { center_x := 0, center_y := 0, width := 1, height := 1,
                         y_min := 0, x_min := 0, y_max := 1, x_max := 1 } } ∧
    (sanitizeComponents 100 100 [.jobj [("label", .jstr "a")]]).length = 1 := by
  have hbox : scale_box_core 0 0 0 0 100 100 =
      { center_x := 0, center_y := 0, width := 1, height := 1,
        y_min := 0, x_min := 0, y_max := 1, x_max := 1 } := by
    norm_num [scale_box_core, ordPair, repairMax, clamp01000, scaleCoord, roundHalfEven,
      min_def, max_def, Int.fdiv]
  have hcomp : sanitizeComponent 100 100 0 (.jobj [("label", .jstr "a")]) =
      some { id := .jnum 1, label := .jstr "a", type := .jstr "other", tags := [],
             box_norm := .jarr [.jnum 0, .jnum 0, .jnum 0, .jnum 0],
             box_px := { center_x := 0, center_y := 0, width := 1, height := 1,
                         y_min := 0, x_min := 0, y_max := 1, x_max := 1 } } := by
    calc sanitizeComponent 100 100 0 (.jobj [("label", .jstr "a")])
        = some { id := .jnum (((0 : ℕ) : ℚ) + 1), label := .jstr "a",
                 type := .jstr "other", tags := [],
                 box_norm := .jarr [.jnum 0, .jnum 0, .jnum 0, .jnum 0],
                 box_px := scale_box_core 0 0 0 0 100 100 } := rfl
      _ = _ := by rw [hbox]; norm_num
  refine ⟨hcomp, ?_⟩
  show (sanitizeList 100 100 0 [.jobj [("label", .jstr "a")]]).length = 1
  simp only [sanitizeList, hcomp]
  rfl

/-- C1 witness: the drop branch at a present-but-null box, and the exact
count relation around it. -/
theorem sanitizer_box_drop_policy_witness :
    sanitizeComponent 100 100 0 (.jobj [("box_2d", .jnull)]) = none ∧
    (sanitizeComponents 100 100 ([] ++ JVal.jobj [("box_2d", .jnull)] :: [])).length =
      (sanitizeComponents 100 100 ([] ++ [])).length +
        (if survivesB 100 100 (.jobj [("box_2d", .jnull)]) then 1 else 0) :=
  ⟨sanitizer_box_drop_policy.1 100 100 0 [("box_2d", .jnull)] .jnull rfl rfl,
   sanitizer_box_drop_policy.2.1 100 100 [] [] (.jobj [("box_2d", .jnull)])⟩

lemma typeCheck_some_shape {v ct : JVal} (h : typeCheck v = some ct) :
    ∃ s, ct = .jstr s ∧ s ∈ ALLOWED_TYPES := by
  cases v with
  | jarr xs => exact absurd h (by simp [typeCheck])
  | jobj fs => exact absurd h (by simp [typeCheck])
  | jstr s =>
    simp only [typeCheck, Option.some.injEq] at h
    by_cases hm : s ∈ ALLOWED_TYPES
    · exact ⟨s, by rw [← h, if_pos hm], hm⟩
    · exact ⟨"other", by rw [← h, if_neg hm], by simp [ALLOWED_TYPES]⟩
  | jnull =>
    simp only [typeCheck, Option.some.injEq] at h
    exact ⟨"other", h.symm, by simp [ALLOWED_TYPES]⟩
  | jbool b =>
    simp only [typeCheck, Option.some.injEq] at h
    exact ⟨"other", h.symm, by simp [ALLOWED_TYPES]⟩
  | jnum q =>
    simp only [typeCheck, Option.some.injEq] at h
    exact ⟨"other", h.symm, by simp [ALLOWED_TYPES]⟩

/-- C9 (amended).  For a surviving mapping component: `id` defaults to the
positional `index + 1` only when the field is ABSENT — a present `id` of any
shape (even a non-integer) passes through unchanged; `label` defaults to
`"unknown"` when absent and passes through unchanged when present; `type`
always comes out as a string of the closed enumeration, with an
unrecognized string coerced to `"other"`; `tags` is kept verbatim whenever
the field is a list (regardless of element types) and is empty when the
field is absent. -/
theorem sanitizer_field_defaults (w h : ℤ) (i : ℕ) (fields : List (String × JVal))
    (comp : Component) (hs : sanitizeComponent w h i (.jobj fields) = some comp) :
    (List.lookup "id" fields = none → comp.id = .jnum (i + 1)) ∧
    (∀ v, List.lookup "id" fields = some v → comp.id = v) ∧
    (List.lookup "label" fields = none → comp.label = .jstr "unknown") ∧
    (∀ v, List.lookup "label" fields = some v → comp.label = v) ∧
    (∃ s, comp.type = .jstr s ∧ s ∈ ALLOWED_TYPES) ∧
    (∀ t, List.lookup "type" fields = some (.jstr t) → t ∉ ALLOWED_TYPES →
      comp.type = .jstr "other") ∧
    (∀ ts, List.lookup "tags" fields = some (.jarr ts) → comp.tags = ts) ∧
    (List.lookup "tags" fields = none → comp.tags = []) := by
  obtain ⟨ctype, xs, pb, htc, hbox, hlen, hsb, hc⟩ := sanitizeComponent_eq_some hs
  subst hc
  refine ⟨?_, ?_, ?_, ?_, ?_, ?_, ?_, ?_⟩
  · intro hnone
    simp [hnone]
  · intro v hv
    simp [hv]
  · intro hnone
    simp [hnone]
  · intro v hv
    simp [hv]
  · exact typeCheck_some_shape htc
  · intro t ht hmem
    rw [ht] at htc
    dsimp only [Option.getD] at htc
    simp only [typeCheck, Option.some.injEq] at htc
    rw [if_neg hmem] at htc
    show ctype = .jstr "other"
    exact htc.symm
  · intro ts hts
    show (match List.lookup "tags" fields with
          | some (.jarr ts) => ts
          | _ => []) = ts
    rw [hts]
  · intro hnone
    show (match List.lookup "tags" fields with
          | some (.jarr ts) => ts
          | _ => []) = []
    rw [hnone]

/-- C9 counterexample.  A component with a non-integer `id` (`"x"`) and a
`tags` list containing a number survives with both passed through verbatim:
the `id` is not an integer and is not replaced by the positional default,
and `tags` is not a sequence of strings. -/
theorem sanitizer_id_passthrough :
    sanitizeComponent 100 100 0 (.jobj [("id", .jstr "x"), ("tags", .jarr [.jnum 1]),
      ("box_2d", .jarr [.jnum 0, .jnum 0, .jnum 100, .jnum 100])]) =
    some { id := .jstr "x", label := .jstr "unknown", type := .jstr "other",
           tags := [.jnum 1],
           box_norm := .jarr [.jnum 0, .jnum 0, .jnum 100, .jnum 100],
           box_px := { center_x := 5, center_y := 5, width := 10, height := 10,
                       y_min := 0, x_min := 0, y_max := 10, x_max := 10 } } ∧
    JVal.jstr "x" ≠ .jnum 1 := by
  constructor
  · have hbox : scale_box_core 0 0 100 100 100 100 =
        { center_x := 5, center_y := 5, width := 10, height := 10,
          y_min := 0, x_min := 0, y_max := 10, x_max := 10 } := by
      norm_num [scale_box_core, ordPair, repairMax, clamp01000, scaleCoord,
        roundHalfEven, min_def, max_def, Int.fdiv]
    calc sanitizeComponent 100 100 0 (.jobj [("id", .jstr "x"),
          ("tags", .jarr [.jnum 1]),
          ("box_2d", .jarr [.jnum 0, .jnum 0, .jnum 100, .jnum 100])])
        = some { id := .jstr "x", label := .jstr "unknown", type := .jstr "other",
                 tags := [.jnum 1],
                 box_norm := .jarr [.jnum 0, .jnum 0, .jnum 100, .jnum 100],
                 box_px := scale_box_core 0 0 100 100 100 100 } := rfl
      _ = _ := by rw [hbox]
  · intro hcon
    exact JVal.noConfusion hcon

/-- C9 witness: the field-defaults theorem at a concrete surviving
component whose `type` is the unrecognized string `"weird"`. -/
theorem sanitizer_field_defaults_witness :
    (List.lookup "id" [("label", JVal.jstr "OK"), ("type", JVal.jstr "weird"),
        ("box_2d", JVal.jarr [.jnum 0, .jnum 0, .jnum 100, .jnum 100])] = none →
      JVal.jnum (((0 : ℕ) : ℚ) + 1) = .jnum (((0 : ℕ) : ℚ) + 1)) ∧
    (∀ v, List.lookup "id" [("label", JVal.jstr "OK"), ("type", JVal.jstr "weird"),
        ("box_2d", JVal.jarr [.jnum 0, .jnum 0, .jnum 100, .jnum 100])] = some v →
      JVal.jnum (((0 : ℕ) : ℚ) + 1) = v) ∧
    (List.lookup "label" [("label", JVal.jstr "OK"), ("type", JVal.jstr "weird"),
        ("box_2d", JVal.jarr [.jnum 0, .jnum 0, .jnum 100, .jnum 100])] = none →
      JVal.jstr "OK" = .jstr "unknown") ∧
    (∀ v, List.lookup "label" [("label", JVal.jstr "OK"), ("type", JVal.jstr "weird"),
        ("box_2d", JVal.jarr [.jnum 0, .jnum 0, .jnum 100, .jnum 100])] = some v →
      JVal.jstr "OK" = v) ∧
    (∃ s, JVal.jstr "other" = .jstr s ∧ s ∈ ALLOWED_TYPES) ∧
    (∀ t, List.lookup "type" [("label", JVal.jstr "OK"), ("type", JVal.jstr "weird"),
        ("box_2d", JVal.jarr [.jnum 0, .jnum 0, .jnum 100, .jnum 100])] =
          some (.jstr t) → t ∉ ALLOWED_TYPES → JVal.jstr "other" = .jstr "other") ∧
    (∀ ts, List.lookup "tags" [("label", JVal.jstr "OK"), ("type", JVal.jstr "weird"),
        ("box_2d", JVal.jarr [.jnum 0, .jnum 0, .jnum 100, .jnum 100])] =
          some (.jarr ts) → ([] : List JVal) = ts) ∧
    (List.lookup "tags" [("label", JVal.jstr "OK"), ("type", JVal.jstr "weird"),
        ("box_2d", JVal.jarr [.jnum 0, .jnum 0, .jnum 100, .jnum 100])] = none →
      ([] : List JVal) = []) :=
  sanitizer_field_defaults 100 100 0
    [("label", JVal.jstr "OK"), ("type", JVal.jstr "weird"),
     ("box_2d", JVal.jarr [.jnum 0, .jnum 0, .jnum 100, .jnum 100])]
    { id := .jnum (((0 : ℕ) : ℚ) + 1), label := .jstr "OK", type := .jstr "other",
      tags := [],
      box_norm := .jarr [.jnum 0, .jnum 0, .jnum 100, .jnum 100],
      box_px := scale_box_core 0 0 100 100 100 100 }
    rfl

lemma assembleResult_count {W H : ℤ} {d : JVal} {s : JVal} {w h : ℤ}
    {comps : List Component} {cnt : ℕ}
    (he : assembleResult W H d = .ok s w h comps cnt) : cnt = comps.length := by
  cases d with
  | jobj fields =>
    simp only [assembleResult] at he
    injection he with h1 h2 h3 h4 h5
    rw [← h5, ← h4]
  | jnull => exact absurd he (by simp [assembleResult])
  | jbool b => exact absurd he (by simp [assembleResult])
  | jnum q => exact absurd he (by simp [assembleResult])
  | jstr st => exact absurd he (by simp [assembleResult])
  | jarr xs => exact absurd he (by simp [assembleResult])

/-- C10.  On every successful run the returned `component_count` equals the
length of the returned component list, and sanitization never produces more
components than the provider's raw list holds; an empty component list is a
valid successful outcome (exhibited by the witness). -/
theorem component_count_consistency :
    (∀ loadImage hnd inp r n s w h comps cnt,
      analyze_screenshot loadImage hnd inp = (r, n) →
      r = .ok s w h comps cnt → cnt = comps.length) ∧
    (∀ (w h : ℤ) (raw : List JVal),
      (sanitizeComponents w h raw).length ≤ raw.length) := by
  constructor
  · intro li hnd inp r n s w h comps cnt hrun hok
    subst hok
    cases inp with
    | none =>
      simp only [analyze_screenshot] at hrun
      exact absurd hrun (by simp)
    | some str =>
      simp only [analyze_screenshot] at hrun
      split at hrun
      · exact absurd hrun (by simp)
      · split at hrun
        · exact absurd hrun (by simp)
        · split at hrun
          · exact absurd hrun (by simp)
          · split at hrun
            · exact absurd hrun (by simp)
            · split at hrun
              · exact absurd hrun (by simp)
              · rename_i bytes hbytes hempty hbig img w' h'
                split at hrun
                · exact absurd hrun (by simp)
                · split at hrun
                  · exact absurd hrun (by simp)
                  · split at hrun
                    · exact absurd hrun (by simp)
                    · split at hrun
                      · exact absurd hrun (by simp)
                      · exact absurd hrun (by simp)
                      · rename_i data n' hcall
                        rw [Prod.mk.injEq] at hrun
                        exact assembleResult_count hrun.1
  · intro w h raw
    calc (sanitizeComponents w h raw).length
        = raw.countP (survivesB w h) := length_sanitizeList w h 0 raw
    _ ≤ raw.length := List.countP_le_length (survivesB w h)

/-- C10 witness: a concrete successful run returning zero components, with
`component_count = 0` — an empty detection set is a success, not an error. -/
theorem component_count_consistency_witness :
    0 = ([] : List Component).length ∧
    (sanitizeComponents 100 100 []).length ≤ ([] : List JVal).length :=
  ⟨component_count_consistency.1 (fun _ => some (100, 100))
      (some (fun _ => Except.ok (.jobj [("components", .jarr [])]))) (some "QUJD")
      (.ok (.jstr "") 100 100 [] 0) 1 (.jstr "") 100 100 [] 0 rfl rfl,
   component_count_consistency.2 100 100 []⟩

end Grounding
